import Mathlib

/-!
Shallow embedding of the local-daemon interaction layer of the
ollama_python_linux_management_cli repository (file ollama_cli.py).

The daemon itself is external: every function that, in the source, performs a
network call takes the daemon response as an explicit argument
(an Except value for calls that may raise, a record of streamed items plus an
optional trailing error for streaming calls).  User keyboard input is likewise
an explicit String argument.  Printing is modelled by returning the data that
the source writes to the terminal (displayed fragment text, error notices,
pull statuses).
-/

namespace OllamaCLI

/-- Embedding of Python str.strip on a character list: drop whitespace from
both ends. -/
def stripChars (l : List Char) : List Char :=
  ((l.dropWhile Char.isWhitespace).reverse.dropWhile Char.isWhitespace).reverse

/-- Embedding of Python str.strip. -/
def pyStrip (s : String) : String := ⟨stripChars s.data⟩

/-- Embedding of Python str.lower (ASCII range, as used by the CLI). -/
def pyLower (s : String) : String := ⟨s.data.map Char.toLower⟩

/-- One entry of the daemon model list.  The source reads the model name via
fallback keys (the model field, then the name field), so both are optional
here; size and digest are carried for display. -/
structure ModelEntry where
  model : Option String
  name : Option String
  size : Nat
  digest : String
  deriving DecidableEq

/-- Name extraction used by ensure_model_exists (line 182):
getattr(m, model-field, m.get(model-field, m.get(name-field, ""))). -/
def entryNameEnsure (e : ModelEntry) : String :=
  e.model.getD (e.name.getD "")

/-- Name extraction used by list_installed_models (line 141):
m.get(name-field, m.get(model-field, "Unknown")). -/
def listedName (e : ModelEntry) : String :=
  e.name.getD (e.model.getD "Unknown")

/-- A pull stream: the statuses delivered in order, then either clean
completion (error = none) or an exception after the listed statuses. -/
structure PullStream where
  statuses : List String
  error : Option String
  deriving DecidableEq

/-- Result of ensure_model_exists: whether the pull operation was invoked,
the Boolean return value, and the pull statuses displayed. -/
structure EnsureResult where
  pulled : Bool
  ready : Bool
  statusesShown : List String
  deriving DecidableEq

/-- Embedding of ensure_model_exists (lines 174-195).  The daemon list call
is the resp argument (Except.error for a raised exception); the pull stream
is consulted only when the membership test fails.  On a raised exception the
source prints an error and returns False; otherwise it returns True. -/
def ensure_model_exists (model_name : String)
    (resp : Except String (List ModelEntry)) (pull : PullStream) : EnsureResult :=
  match resp with
  | .error _ => ⟨false, false, []⟩
  | .ok entries =>
    let models := entries.map entryNameEnsure
    if !models.contains model_name && !models.contains (model_name ++ ":latest") then
      match pull.error with
      | none => ⟨true, true, pull.statuses⟩
      | some _ => ⟨true, false, pull.statuses⟩
    else ⟨false, true, []⟩

/-- A chat message as built by the source (role and content fields). -/
structure ChatMessage where
  role : String
  content : String
  deriving DecidableEq

/-- What the chat loop does with one line of user input at the prompt
(lines 241-254): either leave the session (break) or call the daemon chat
operation with the given message list. -/
inductive PromptAction where
  | exitSession
  | invokeChat (messages : List ChatMessage)
  deriving DecidableEq

/-- The fixed exit-keyword list of line 244. -/
def exitKeywords : List String := ["exit", "quit", "q"]

/-- Embedding of lines 241-254 of run_llama: the raw input is stripped; if
its lowercase form is an exit keyword the loop breaks, otherwise the daemon
chat call is made with a single user message holding the stripped prompt. -/
def promptStep (raw : String) : PromptAction :=
  let prompt := pyStrip raw
  if exitKeywords.contains (pyLower prompt) then .exitSession
  else .invokeChat [⟨"user", prompt⟩]

/-- One streamed chat chunk; the content field may be missing, in which case
the source substitutes the empty string. -/
structure ChatChunk where
  content : Option String
  deriving DecidableEq

/-- chunk.get(message-field, empty).get(content-field, "") of line 258. -/
def chunkContent (c : ChatChunk) : String := c.content.getD ""

/-- A chat stream: chunks delivered in order, then either clean completion
(error = none) or an exception after the listed chunks. -/
structure ChatStream where
  chunks : List ChatChunk
  error : Option String
  deriving DecidableEq

/-- States of the chat-session state machine of run_llama.  awaitingPrompt
is the top of the while loop; subMenu is the inner choice loop; terminated
means run_llama has returned to the main menu. -/
inductive SessionState where
  | awaitingPrompt
  | subMenu
  | terminated
  deriving DecidableEq

/-- Result of consuming one chat stream (lines 256-275): the fragment text
printed (in arrival order, accumulated left to right), the error notice if
the stream raised, and the state the session moves to: the sub-menu on clean
completion, terminated on an exception (the except handler breaks out of the
whole chat loop). -/
structure TurnResult where
  displayed : String
  errorNotice : Option String
  next : SessionState
  deriving DecidableEq

/-- Embedding of the streaming display loop and its exception handler
(lines 256-275).  Every delivered chunk is printed before an exception can
arrive, so the displayed text is the fold over all delivered chunks in both
cases. -/
def streamTurn (s : ChatStream) : TurnResult :=
  let displayed := s.chunks.foldl (fun acc c => acc ++ chunkContent c) ""
  match s.error with
  | none => ⟨displayed, none, .subMenu⟩
  | some e => ⟨displayed, some e, .terminated⟩

/-- Embedding of the sub-menu loop body (lines 263-271): the raw input is
lowered then stripped; the continue key goes back to the prompt, the quit
key returns to the main menu, anything else repeats the sub-menu prompt
(state unchanged). -/
def subMenuStep (raw : String) : SessionState :=
  let choice := pyStrip (pyLower raw)
  if choice = "c" then .awaitingPrompt
  else if choice = "q" then .terminated
  else .subMenu

/-- Embedding of the matching logic of select_and_run_model (lines 215-221):
exact name first, then the name with the :latest tag appended; the empty
string is the no-match sentinel, exactly as in the source. -/
def matchModel (installed_names : List String) (user_choice : String) : String :=
  if installed_names.contains user_choice then user_choice
  else if installed_names.contains (user_choice ++ ":latest") then user_choice ++ ":latest"
  else ""

/-- Observable outcome of select_and_run_model: report no models and return;
return silently on blank input; set the active model name and start the chat
session; or report no match and return. -/
inductive SelectOutcome where
  | noModels
  | cancelled
  | chatWith (model : String)
  | noMatch (choice : String)
  deriving DecidableEq

/-- Embedding of select_and_run_model (lines 197-229), taking the installed
name list and the raw user input. -/
def select_and_run_model (installed_names : List String) (raw : String) :
    SelectOutcome :=
  if installed_names.isEmpty then .noModels
  else
    let user_choice := pyStrip raw
    if user_choice = "" then .cancelled
    else
      let matched := matchModel installed_names user_choice
      if matched ≠ "" then .chatWith matched
      else .noMatch user_choice

/-- Result of list_installed_models: the returned name list and the error
notice printed by the except handler (none when no exception was raised). -/
structure ListInstalledResult where
  names : List String
  errorNotice : Option String
  deriving DecidableEq

/-- Embedding of list_installed_models (lines 124-151): on a raised
exception it prints an error notice and returns the empty list; otherwise it
returns the names extracted from the daemon response in order. -/
def list_installed_models (resp : Except String (List ModelEntry)) :
    ListInstalledResult :=
  match resp with
  | .error e => ⟨[], some e⟩
  | .ok entries => ⟨entries.map listedName, none⟩

/-! ### Helper lemmas about the string embedding -/

theorem whitespace_toLower_fixed (c : Char) (h : c.isWhitespace = true) :
    c.toLower = c := by
  simp only [Char.isWhitespace, Bool.or_eq_true, decide_eq_true_eq] at h
  rcases h with ((h | h) | h) | h <;> subst h <;> decide

theorem not_whitespace_of_toLower (c : Char)
    (h : (c.toLower).isWhitespace = false) : c.isWhitespace = false := by
  cases hw : c.isWhitespace with
  | false => rfl
  | true =>
    rw [whitespace_toLower_fixed c hw] at h
    rw [hw] at h
    exact Bool.noConfusion h

theorem dropWhile_eq_self_of_none (p : Char → Bool) (l : List Char)
    (h : ∀ c ∈ l, p c = false) : l.dropWhile p = l := by
  cases l with
  | nil => rfl
  | cons a as =>
    rw [List.dropWhile_cons]
    simp [h a (List.mem_cons_self a as)]

theorem stripChars_eq_self (l : List Char)
    (h : ∀ c ∈ l, Char.isWhitespace c = false) : stripChars l = l := by
  unfold stripChars
  rw [dropWhile_eq_self_of_none _ _ h,
    dropWhile_eq_self_of_none _ _ (fun c hc => h c (List.mem_reverse.mp hc)),
    List.reverse_reverse]

theorem pyStrip_eq_self (s : String)
    (h : ∀ c ∈ s.data, Char.isWhitespace c = false) : pyStrip s = s := by
  unfold pyStrip
  rw [stripChars_eq_self _ h]

theorem lower_chars_not_ws (i kw : String) (hl : pyLower i = kw)
    (hkw : ∀ d ∈ kw.data, Char.isWhitespace d = false) :
    ∀ c ∈ i.data, Char.isWhitespace c = false := by
  intro c hc
  have hdata : i.data.map Char.toLower = kw.data := congrArg String.data hl
  have hmem : Char.toLower c ∈ kw.data := by
    rw [← hdata]; exact List.mem_map_of_mem _ hc
  exact not_whitespace_of_toLower c (hkw _ hmem)

theorem pyStrip_of_exit (i : String)
    (h : pyLower i = "exit" ∨ pyLower i = "quit" ∨ pyLower i = "q") :
    pyStrip i = i := by
  rcases h with h | h | h <;>
    exact pyStrip_eq_self _ (lower_chars_not_ws _ _ h (by decide))

/-! ### Claim theorems -/

/-- Claim C1: for every installed-model list returned by the daemon and every
requested model name, ensure_model_exists invokes the pull operation exactly
when neither the name nor the name with the :latest tag appears among the
extracted model names; it returns True when the pull stream completes without
error, and in particular whenever no pull was needed. -/
theorem ensure_pulls_iff (q : String) (entries : List ModelEntry)
    (pull : PullStream) :
    ((ensure_model_exists q (Except.ok entries) pull).pulled = true ↔
      ((entries.map entryNameEnsure).contains q = false ∧
        (entries.map entryNameEnsure).contains (q ++ ":latest") = false)) ∧
    (pull.error = none →
      (ensure_model_exists q (Except.ok entries) pull).ready = true) ∧
    ((ensure_model_exists q (Except.ok entries) pull).pulled = false →
      (ensure_model_exists q (Except.ok entries) pull).ready = true) := by
  cases h1 : (entries.map entryNameEnsure).contains q <;>
    cases h2 : (entries.map entryNameEnsure).contains (q ++ ":latest") <;>
    cases h3 : pull.error <;>
    simp only [ensure_model_exists, h1, h2, h3, Bool.not_true, Bool.not_false,
      Bool.and_true, Bool.and_false, Bool.true_and, Bool.false_and] <;>
    simp

/-- Witness for C1 at a concrete input: with an empty installed list the pull
fires and, the stream completing cleanly, the result is ready. -/
theorem ensure_pulls_iff_witness :
    (ensure_model_exists "m" (Except.ok ([] : List ModelEntry))
        ⟨["s"], none⟩).pulled = true ∧
    (ensure_model_exists "m" (Except.ok ([] : List ModelEntry))
        ⟨["s"], none⟩).ready = true :=
  ⟨((ensure_pulls_iff "m" [] ⟨["s"], none⟩).1).mpr (by decide),
    ((ensure_pulls_iff "m" [] ⟨["s"], none⟩).2.1) rfl⟩

/-- Claim C2: when the chat stream delivers its chunks without error, the
displayed output is exactly the concatenation of the chunk contents in
arrival order, and the session moves on to the sub-menu. -/
theorem stream_displays_concat (chunks : List ChatChunk) :
    (streamTurn ⟨chunks, none⟩).displayed =
      String.join (chunks.map chunkContent) ∧
    (streamTurn ⟨chunks, none⟩).next = SessionState.subMenu := by
  constructor
  · simp [streamTurn, String.join, List.foldl_map]
  · rfl

/-- Claim C5: when the chat stream raises after delivering some chunks, the
already-displayed text is still the concatenation of everything delivered
(nothing is retracted), an error notice is reported, and the session is
terminated; in particular a stream that errors after emitting Hel leaves
exactly Hel on screen. -/
theorem stream_error_terminates (chunks : List ChatChunk) (e : String) :
    (streamTurn ⟨chunks, some e⟩).displayed =
      String.join (chunks.map chunkContent) ∧
    (streamTurn ⟨chunks, some e⟩).errorNotice = some e ∧
    (streamTurn ⟨chunks, some e⟩).next = SessionState.terminated ∧
    streamTurn ⟨[⟨some "Hel"⟩], some e⟩ =
      ⟨"Hel", some e, SessionState.terminated⟩ := by
  refine ⟨?_, rfl, rfl, ?_⟩
  · simp [streamTurn, String.join, List.foldl_map]
  · simp [streamTurn, chunkContent]

/-- Claim C4: input whose lowercase form is one of the exit keywords makes
the chat loop break out of the session at the prompt; the daemon chat
operation is not invoked for that input. -/
theorem prompt_exit_terminates (i : String)
    (h : pyLower i = "exit" ∨ pyLower i = "quit" ∨ pyLower i = "q") :
    promptStep i = PromptAction.exitSession ∧
      ∀ msgs, promptStep i ≠ PromptAction.invokeChat msgs := by
  have hs : pyStrip i = i := pyStrip_of_exit i h
  have hmem : pyLower (pyStrip i) ∈ exitKeywords := by
    rw [hs]; rcases h with h | h | h <;> rw [h] <;> decide
  have h1 : promptStep i = PromptAction.exitSession := by
    simp [promptStep, hmem]
  exact ⟨h1, fun msgs hc => by rw [h1] at hc; exact PromptAction.noConfusion hc⟩

/-- Witness for C4 at a concrete input: the upper-case exit keyword ends the
session. -/
theorem prompt_exit_terminates_witness :
    promptStep "EXIT" = PromptAction.exitSession :=
  (prompt_exit_terminates "EXIT" (Or.inl (by decide))).1

/-- Counterexample for claim C3 as stated: the sub-menu lowercases and strips
the input before comparing, so the input consisting of the single upper-case
letter C, which is equal to neither of the literal keys, is nevertheless
accepted and sent back to the prompt instead of being rejected. -/
theorem subMenu_counterexample :
    ("C" : String) ≠ "c" ∧ ("C" : String) ≠ "q" ∧
    subMenuStep "C" = SessionState.awaitingPrompt ∧
    subMenuStep "C" ≠ SessionState.subMenu := by
  refine ⟨by decide, by decide, ?_, ?_⟩ <;> decide

/-- Claim C3 amended: with the input normalised as the source does (lowercase
then strip), the sub-menu returns to the prompt exactly on the continue key,
terminates the session exactly on the quit key, and on any other input
repeats the sub-menu prompt with the state unchanged. -/
theorem subMenu_transitions (i : String) :
    (subMenuStep i = SessionState.awaitingPrompt ↔ pyStrip (pyLower i) = "c") ∧
    (subMenuStep i = SessionState.terminated ↔ pyStrip (pyLower i) = "q") ∧
    (pyStrip (pyLower i) ≠ "c" → pyStrip (pyLower i) ≠ "q" →
      subMenuStep i = SessionState.subMenu) := by
  by_cases h1 : pyStrip (pyLower i) = "c"
  · simp [subMenuStep, h1]
  · by_cases h2 : pyStrip (pyLower i) = "q" <;> simp [subMenuStep, h1, h2]

/-- Witness for the amended C3 at a concrete input: an invalid choice leaves
the sub-menu state unchanged. -/
theorem subMenu_transitions_witness :
    subMenuStep "x" = SessionState.subMenu :=
  (subMenu_transitions "x").2.2 (by decide) (by decide)

/-- Counterexample for claim C6 as stated: blank input at the chat prompt is
not re-prompted; the chat loop has no blank check, so the daemon chat call is
made with a single user message whose content is empty. -/
theorem empty_prompt_counterexample :
    promptStep "" = PromptAction.invokeChat [⟨"user", ""⟩] ∧
    promptStep "" ≠ PromptAction.exitSession := by
  refine ⟨?_, ?_⟩ <;> decide

/-- Claim C6 amended: input that is blank after stripping is not an exit
keyword and is not special-cased; it starts a streaming turn, invoking the
daemon chat operation with the empty prompt as content. -/
theorem empty_prompt_invokes_chat (raw : String) (h : pyStrip raw = "") :
    promptStep raw = PromptAction.invokeChat [⟨"user", ""⟩] := by
  simp [promptStep, h]
  decide

/-- Witness for the amended C6 at a concrete input: whitespace-only input is
sent to the daemon as an empty prompt. -/
theorem empty_prompt_invokes_chat_witness :
    promptStep "   " = PromptAction.invokeChat [⟨"user", ""⟩] :=
  empty_prompt_invokes_chat "   " (by decide)

/-- Claim C7: when the daemon list call raises, list_installed_models surfaces
the failure as an error notice and returns the empty name list; when the
daemon is reachable with no models installed it returns the empty name list
with no error notice; the two observable results are distinct. -/
theorem list_installed_distinguishes (e : String) :
    list_installed_models (Except.error e) = ⟨[], some e⟩ ∧
    list_installed_models (Except.ok ([] : List ModelEntry)) = ⟨[], none⟩ ∧
    list_installed_models (Except.error e) ≠
      list_installed_models (Except.ok ([] : List ModelEntry)) := by
  refine ⟨rfl, rfl, ?_⟩
  simp [list_installed_models]

/-- Witness for C7 at a concrete input: an unreachable daemon and an empty
installed list give observably different results. -/
theorem list_installed_distinguishes_witness :
    list_installed_models (Except.error "boom") ≠
      list_installed_models (Except.ok ([] : List ModelEntry)) :=
  (list_installed_distinguishes "boom").2.2

/-- Claim C8: whenever the prompt handler invokes the daemon chat operation,
the request carries exactly one message, with role user and content equal to
the current (stripped) prompt; no history from earlier turns is included. -/
theorem chat_request_single (raw : String) (msgs : List ChatMessage)
    (h : promptStep raw = PromptAction.invokeChat msgs) :
    msgs = [⟨"user", pyStrip raw⟩] ∧ msgs.length = 1 := by
  by_cases hc : pyLower (pyStrip raw) ∈ exitKeywords
  · simp [promptStep, hc] at h
  · simp [promptStep, hc] at h
    cases h
    exact ⟨rfl, rfl⟩

/-- Witness for C8 at a concrete input. -/
theorem chat_request_single_witness :
    ([⟨"user", "hello"⟩] : List ChatMessage) = [⟨"user", pyStrip "hello"⟩] ∧
    ([⟨"user", "hello"⟩] : List ChatMessage).length = 1 :=
  chat_request_single "hello" [⟨"user", "hello"⟩] (by decide)

/-- Claim C9: with an empty installed list, select_and_run_model reports that
no models are available and no session starts; in the concrete scenario where
the daemon lists one model named llama3:latest and the user types llama3, the
:latest match succeeds and the session starts with that model as the active
name; and when the matching logic finds nothing the outcome is a no-match
report, with no model set and no session started. -/
theorem select_and_run_spec :
    (∀ raw, select_and_run_model [] raw = SelectOutcome.noModels) ∧
    select_and_run_model
        (list_installed_models (Except.ok
          [⟨none, some "llama3:latest", 4000000000, "abc123"⟩])).names
        "llama3" = SelectOutcome.chatWith "llama3:latest" ∧
    (∀ names raw, names ≠ [] → pyStrip raw ≠ "" →
      matchModel names (pyStrip raw) = "" →
      select_and_run_model names raw = SelectOutcome.noMatch (pyStrip raw)) := by
  refine ⟨fun raw => rfl, by decide, ?_⟩
  intro names raw h1 h2 h3
  have hne : names.isEmpty = false := by
    cases names with
    | nil => exact absurd rfl h1
    | cons a as => rfl
  simp [select_and_run_model, hne, h2, h3]

/-- Witness for C9 at concrete inputs: a name that matches nothing in the
installed list yields the no-match outcome. -/
theorem select_and_run_spec_witness :
    select_and_run_model ["a"] "b" = SelectOutcome.noMatch "b" :=
  select_and_run_spec.2.2 ["a"] "b" (by decide) (by decide) (by decide)

/-- Claim C10: when the installed list contains both the typed name and the
name with the :latest tag, the matching logic picks the exact name, and the
session starts with the exact name as the active model. -/
theorem exact_match_precedence (names : List String) (q : String)
    (h1 : q ∈ names) (h2 : q ++ ":latest" ∈ names)
    (hs : pyStrip q = q) (hne : q ≠ "") :
    matchModel names q = q ∧
    select_and_run_model names q = SelectOutcome.chatWith q := by
  have hm : matchModel names q = q := by simp [matchModel, h1]
  have hempty : names.isEmpty = false := by
    cases names with
    | nil => exact absurd h1 (List.not_mem_nil q)
    | cons a as => rfl
  refine ⟨hm, ?_⟩
  unfold select_and_run_model
  rw [hempty]
  simp only [Bool.false_eq_true, if_false, hs]
  rw [hm]
  simp [hne]

/-- Witness for C10 at a concrete input: with both m and m:latest installed,
typing m selects m itself. -/
theorem exact_match_precedence_witness :
    matchModel ["m", "m:latest"] "m" = "m" ∧
    select_and_run_model ["m", "m:latest"] "m" = SelectOutcome.chatWith "m" :=
  exact_match_precedence ["m", "m:latest"] "m" (by decide) (by decide)
    (by decide) (by decide)

end OllamaCLI
